import Mathlib

/-!
Verification development for the vexscan-api scan-ingestion core.

The definitions below are a shallow embedding of the Python sources:
  app/adapters/dto.py                (normalized data model)
  app/adapters/nessus.py             (reference parser and fingerprint)
  app/services/import_service.py     (import orchestrator, batching)
  app/services/import_service_optimized.py (service-role import variant)

Machine strings are Lean `String`s; byte strings are `List Nat` (each entry
one byte).  Python helpers (`str.lower`, `str.strip`, `int(...)`, truthiness)
are embedded as explicit functions named with a `py` prefix.  The embedding of
Python string methods covers the ASCII range, which is the range exercised by
the scanner formats involved.  `hashlib.sha256` is embedded as a full SHA-256
implementation over byte lists with arithmetic mod 2^32.
-/

namespace VexScan

/-! ## Python string helpers -/

/-- Model of Python `str.lower` (ASCII range). -/
def asciiLowerChar (c : Char) : Char :=
  if c.toNat ≥ 65 ∧ c.toNat ≤ 90 then Char.ofNat (c.toNat + 32) else c

/-- Model of Python `str.upper` (ASCII range). -/
def asciiUpperChar (c : Char) : Char :=
  if c.toNat ≥ 97 ∧ c.toNat ≤ 122 then Char.ofNat (c.toNat - 32) else c

def pyLower (s : String) : String := String.mk (s.data.map asciiLowerChar)

def pyUpper (s : String) : String := String.mk (s.data.map asciiUpperChar)

/-- Whitespace characters stripped by Python `str.strip()` (ASCII range). -/
def pyIsSpace (c : Char) : Bool :=
  c = ' ' ∨ c = '\t' ∨ c = '\n' ∨ c = '\x0d' ∨ c = '\x0b' ∨ c = '\x0c'

/-- Model of Python `str.strip()`: drop whitespace from both ends. -/
def pyStrip (s : String) : String :=
  String.mk (((s.data.dropWhile pyIsSpace).reverse.dropWhile pyIsSpace).reverse)

/-- Python truthiness of an optional string: `None` and `""` are falsy. -/
def pyTruthyOptStr : Option String → Bool
  | none => false
  | some s => s ≠ ""

/-- Model of Python `a or b` for an optional string `a` and string `b`. -/
def pyOrStr (a : Option String) (b : String) : String :=
  match a with
  | some s => if s = "" then b else s
  | none => b

/-- Model of Python `str.isdigit()` (ASCII range): non-empty, all digits. -/
def pyIsDigit (s : String) : Bool :=
  s ≠ "" ∧ s.data.all (fun c => c.toNat ≥ 48 ∧ c.toNat ≤ 57)

def digitsToNat (l : List Char) : Nat :=
  l.foldl (fun acc c => acc * 10 + (c.toNat - 48)) 0

/-- Model of Python `int(s)`: optional sign and ASCII digits after stripping
whitespace; anything else raises `ValueError`. -/
def pyInt (s : String) : Except String Int :=
  let t := pyStrip s
  if pyIsDigit t then .ok (digitsToNat t.data : Nat)
  else if t.data.head? = some '-' ∧ pyIsDigit (String.mk t.data.tail) then
    .ok (-(digitsToNat t.data.tail : Nat))
  else .error ("invalid literal for int() with base 10: " ++ s)

/-- Model of Python `s.split(sep)` for a one-character separator. -/
def pySplitChar (sep : Char) (s : String) : List String :=
  (s.data.splitOn sep).map String.mk

/-- Model of Python `s.startswith(p)`. -/
def pyStartsWith (p s : String) : Bool :=
  s.data.take p.data.length = p.data

/-! ## SHA-256 over byte lists (model of `hashlib.sha256`) -/

def w32 : Nat := 4294967296

def rotr32 (n x : Nat) : Nat := ((x >>> n) ||| (x <<< (32 - n))) % w32

def sha256K : List Nat :=
  [1116352408, 1899447441, 3049323471, 3921009573,
   961987163, 1508970993, 2453635748, 2870763221,
   3624381080, 310598401, 607225278, 1426881987,
   1925078388, 2162078206, 2614888103, 3248222580,
   3835390401, 4022224774, 264347078, 604807628,
   770255983, 1249150122, 1555081692, 1996064986,
   2554220882, 2821834349, 2952996808, 3210313671,
   3336571891, 3584528711, 113926993, 338241895,
   666307205, 773529912, 1294757372, 1396182291,
   1695183700, 1986661051, 2177026350, 2456956037,
   2730485921, 2820302411, 3259730800, 3345764771,
   3516065817, 3600352804, 4094571909, 275423344,
   430227734, 506948616, 659060556, 883997877,
   958139571, 1322822218, 1537002063, 1747873779,
   1955562222, 2024104815, 2227730452, 2361852424,
   2428436474, 2756734187, 3204031479, 3329325298]

def sha256H0 : List Nat :=
  [1779033703, 3144134277, 1013904242, 2773480762,
   1359893119, 2600822924, 528734635, 1541459225]

/-- Big-endian bytes of `n`, `k` bytes wide. -/
def beBytes (k n : Nat) : List Nat :=
  (List.range k).map (fun i => (n >>> ((k - 1 - i) * 8)) % 256)

/-- SHA-256 padding: append 0x80, zero bytes to 56 mod 64, then the bit
length as 8 big-endian bytes. -/
def sha256Pad (msg : List Nat) : List Nat :=
  let padLen := (119 - msg.length % 64) % 64
  msg ++ [0x80] ++ List.replicate padLen 0 ++ beBytes 8 (msg.length * 8)

/-- Group a byte list into big-endian 32-bit words (length divisible by 4). -/
def bytesToWords : List Nat → List Nat
  | b0 :: b1 :: b2 :: b3 :: rest =>
      (b0 * 16777216 + b1 * 65536 + b2 * 256 + b3) :: bytesToWords rest
  | _ => []

/-- Chunking worker, structurally recursive on a fuel bound so that it
reduces inside the kernel.  Called with `fuel ≥ l.length`. -/
def listChunksF (n : Nat) : Nat → List α → List (List α)
  | 0, _ => []
  | _ + 1, [] => []
  | fuel + 1, x :: xs =>
      if n = 0 then [] else
        (x :: xs).take n :: listChunksF n fuel ((x :: xs).drop n)

/-- Split a list into chunks of `n` elements (`n > 0`), modelling the
slice loop `for i in range(0, len(l), n): l[i:i+n]`. -/
def listChunks (n : Nat) (l : List α) : List (List α) :=
  listChunksF n l.length l

theorem listChunksF_flatten (n : Nat) (hn : n ≠ 0) (fuel : Nat) (l : List α)
    (hf : l.length ≤ fuel) : (listChunksF n fuel l).flatten = l := by
  induction fuel generalizing l with
  | zero =>
      cases l with
      | nil => rfl
      | cons x xs => simp at hf
  | succ fuel ih =>
      cases l with
      | nil => rfl
      | cons x xs =>
          rw [listChunksF]
          simp only [if_neg hn, List.flatten_cons]
          rw [ih, List.take_append_drop]
          rw [List.length_drop]
          omega


theorem listChunks_flatten (n : Nat) (hn : n ≠ 0) (l : List α) :
    (listChunks n l).flatten = l :=
  listChunksF_flatten n hn l.length l le_rfl

def smallSigma0 (x : Nat) : Nat := (rotr32 7 x) ^^^ (rotr32 18 x) ^^^ (x >>> 3)

def smallSigma1 (x : Nat) : Nat := (rotr32 17 x) ^^^ (rotr32 19 x) ^^^ (x >>> 10)

def bigSigma0 (x : Nat) : Nat := (rotr32 2 x) ^^^ (rotr32 13 x) ^^^ (rotr32 22 x)

def bigSigma1 (x : Nat) : Nat := (rotr32 6 x) ^^^ (rotr32 11 x) ^^^ (rotr32 25 x)

def shaCh (x y z : Nat) : Nat := (x &&& y) ^^^ ((x ^^^ (w32 - 1)) &&& z)

def shaMaj (x y z : Nat) : Nat := (x &&& y) ^^^ (x &&& z) ^^^ (y &&& z)

/-- Extend a 16-word block schedule by `k` further words. -/
def extendSchedule : List Nat → Nat → List Nat
  | ws, 0 => ws
  | ws, k + 1 =>
      let i := ws.length
      let next := (smallSigma1 (ws.getD (i - 2) 0) + ws.getD (i - 7) 0 +
                   smallSigma0 (ws.getD (i - 15) 0) + ws.getD (i - 16) 0) % w32
      extendSchedule (ws ++ [next]) k

structure Sha8 where
  a : Nat
  b : Nat
  c : Nat
  d : Nat
  e : Nat
  f : Nat
  g : Nat
  h : Nat

def shaRound (st : Sha8) (kw : Nat × Nat) : Sha8 :=
  let t1 := (st.h + bigSigma1 st.e + shaCh st.e st.f st.g + kw.1 + kw.2) % w32
  let t2 := (bigSigma0 st.a + shaMaj st.a st.b st.c) % w32
  { a := (t1 + t2) % w32, b := st.a, c := st.b, d := st.c,
    e := (st.d + t1) % w32, f := st.e, g := st.f, h := st.g }

def listToSha8 (l : List Nat) : Sha8 :=
  { a := l.getD 0 0, b := l.getD 1 0, c := l.getD 2 0, d := l.getD 3 0,
    e := l.getD 4 0, f := l.getD 5 0, g := l.getD 6 0, h := l.getD 7 0 }

def compressBlock (hs : List Nat) (block : List Nat) : List Nat :=
  let ws := extendSchedule (bytesToWords block) 48
  let st := (sha256K.zip ws).foldl shaRound (listToSha8 hs)
  [(hs.getD 0 0 + st.a) % w32, (hs.getD 1 0 + st.b) % w32,
   (hs.getD 2 0 + st.c) % w32, (hs.getD 3 0 + st.d) % w32,
   (hs.getD 4 0 + st.e) % w32, (hs.getD 5 0 + st.f) % w32,
   (hs.getD 6 0 + st.g) % w32, (hs.getD 7 0 + st.h) % w32]

/-- SHA-256 digest of a byte list, as eight 32-bit words. -/
def sha256Words (msg : List Nat) : List Nat :=
  (listChunks 64 (sha256Pad msg)).foldl compressBlock sha256H0

def hexDigitChar (n : Nat) : Char :=
  "0123456789abcdef".data.getD n '0'

/-- Lower-case hexadecimal rendering of a 32-bit word, 8 digits. -/
def wordToHex (n : Nat) : String :=
  String.mk ((List.range 8).map (fun i => hexDigitChar ((n >>> ((7 - i) * 4)) % 16)))

/-- Model of Python `hashlib.sha256(b).hexdigest()`. -/
def sha256Hex (msg : List Nat) : String :=
  String.join ((sha256Words msg).map wordToHex)

/-- UTF-8 encoding of one character (model of Python `str.encode()`). -/
def utf8Char (c : Char) : List Nat :=
  let n := c.toNat
  if n < 0x80 then [n]
  else if n < 0x800 then [0xc0 ||| (n >>> 6), 0x80 ||| (n &&& 0x3f)]
  else if n < 0x10000 then
    [0xe0 ||| (n >>> 12), 0x80 ||| ((n >>> 6) &&& 0x3f), 0x80 ||| (n &&& 0x3f)]
  else
    [0xf0 ||| (n >>> 18), 0x80 ||| ((n >>> 12) &&& 0x3f),
     0x80 ||| ((n >>> 6) &&& 0x3f), 0x80 ||| (n &&& 0x3f)]

/-- Model of Python `s.encode()` (UTF-8 bytes). -/
def strBytes (s : String) : List Nat :=
  (s.data.map utf8Char).flatten

/-- Model of Python `hashlib.sha256(s.encode()).hexdigest()`. -/
def sha256HexOfString (s : String) : String :=
  sha256Hex (strBytes s)

/-! ## Python string ordering (code-point lexicographic `sorted`) -/

/-- Lexicographic `≤` on code-point lists. -/
def lexLe : List Nat → List Nat → Bool
  | [], _ => true
  | _ :: _, [] => false
  | x :: xs, y :: ys => if x < y then true else if x = y then lexLe xs ys else false

/-- Model of Python string comparison `a <= b`: lexicographic on code points. -/
def pyStrLe (a b : String) : Bool :=
  lexLe (a.data.map Char.toNat) (b.data.map Char.toNat)

theorem lexLe_total (a b : List Nat) : lexLe a b = true ∨ lexLe b a = true := by
  induction a generalizing b with
  | nil => left; rfl
  | cons x xs ih =>
      cases b with
      | nil => right; rfl
      | cons y ys =>
          rcases Nat.lt_trichotomy x y with h | h | h
          · left; simp [lexLe, h]
          · subst h
            rcases ih ys with h2 | h2
            · left; simp [lexLe, h2]
            · right; simp [lexLe, h2]
          · right; simp [lexLe, h, Nat.lt_asymm h, Nat.ne_of_gt h]

theorem lexLe_antisymm (a b : List Nat) (hab : lexLe a b = true)
    (hba : lexLe b a = true) : a = b := by
  induction a generalizing b with
  | nil =>
      cases b with
      | nil => rfl
      | cons y ys => simp [lexLe] at hba
  | cons x xs ih =>
      cases b with
      | nil => simp [lexLe] at hab
      | cons y ys =>
          rcases Nat.lt_trichotomy x y with h | h | h
          · simp [lexLe, Nat.lt_asymm h, Nat.ne_of_gt h] at hba
          · subst h
            simp only [lexLe, lt_irrefl, if_false, if_pos rfl] at hab hba
            rw [ih ys hab hba]
          · simp [lexLe, Nat.lt_asymm h, Nat.ne_of_gt h] at hab

theorem lexLe_trans (a b c : List Nat) (hab : lexLe a b = true)
    (hbc : lexLe b c = true) : lexLe a c = true := by
  induction a generalizing b c with
  | nil => rfl
  | cons x xs ih =>
      cases b with
      | nil => simp [lexLe] at hab
      | cons y ys =>
          cases c with
          | nil => simp [lexLe] at hbc
          | cons z zs =>
              by_cases hxy : x < y
              · by_cases hyz : y < z
                · simp [lexLe, Nat.lt_trans hxy hyz]
                · by_cases hyz2 : y = z
                  · subst hyz2; simp [lexLe, hxy]
                  · simp [lexLe, hyz, hyz2] at hbc
              · by_cases hxy2 : x = y
                · subst hxy2
                  simp only [lexLe, lt_irrefl, if_false, if_pos rfl] at hab
                  by_cases hyz : x < z
                  · simp [lexLe, hyz]
                  · by_cases hyz2 : x = z
                    · subst hyz2
                      simp only [lexLe, lt_irrefl, if_false, if_pos rfl] at hbc
                      simp only [lexLe, lt_irrefl, if_false, if_pos rfl]
                      exact ih ys zs hab hbc
                    · simp [lexLe, hyz, hyz2] at hbc
                · simp [lexLe, hxy, hxy2] at hab

/-- The proposition form of the Python string order, used for sorting. -/
def pyStrLeRel (a b : String) : Prop := pyStrLe a b = true

instance : DecidableRel pyStrLeRel := fun a b => instDecidableEqBool (pyStrLe a b) true

instance : IsTotal String pyStrLeRel :=
  ⟨fun a b => lexLe_total (a.data.map Char.toNat) (b.data.map Char.toNat)⟩

instance : IsTrans String pyStrLeRel :=
  ⟨fun a b c => lexLe_trans (a.data.map Char.toNat) (b.data.map Char.toNat)
    (c.data.map Char.toNat)⟩

instance : IsAntisymm String pyStrLeRel := by
  refine ⟨fun a b hab hba => ?_⟩
  have h := lexLe_antisymm _ _ hab hba
  have h2 : a.data = b.data := by
    have hinj : Function.Injective Char.toNat :=
      StrictMono.injective fun c d hcd => hcd
    exact List.map_injective_iff.mpr hinj h
  cases a; cases b; exact congrArg String.mk h2

/-- Model of Python `sorted` on a list of strings. -/
def pySorted (l : List String) : List String := List.insertionSort pyStrLeRel l

/-- Two permuted string lists have the same `sorted` result. -/
theorem pySorted_eq_of_perm {l1 l2 : List String} (h : l1.Perm l2) :
    pySorted l1 = pySorted l2 := by
  refine List.eq_of_perm_of_sorted ?_ (List.sorted_insertionSort pyStrLeRel l1)
    (List.sorted_insertionSort pyStrLeRel l2)
  exact ((List.perm_insertionSort pyStrLeRel l1).trans h).trans
    (List.perm_insertionSort pyStrLeRel l2).symm



/-! ## Normalized data model (app/adapters/dto.py) -/

/-- Normalized severity levels for all scanners (`NormalizedSeverity`). -/
inductive NormalizedSeverity where
  | critical
  | high
  | medium
  | low
  | info
deriving DecidableEq, Repr

/-- The string `value` of each severity enum member. -/
def NormalizedSeverity.value : NormalizedSeverity → String
  | .critical => "Critical"
  | .high => "High"
  | .medium => "Medium"
  | .low => "Low"
  | .info => "Info"

/-- The members of the severity enum in declaration order. -/
def severityLevels : List NormalizedSeverity :=
  [.critical, .high, .medium, .low, .info]

/-- Asset type classification (`AssetType`). -/
inductive AssetType where
  | ip
  | host
  | url
  | app
  | network
  | cloud
deriving DecidableEq, Repr

/-- Normalized asset extracted from the scanner (`RawAsset`).  Timestamps are
kept abstract as `Option Nat` (order-isomorphic to Python `datetime`); the
CVSS float fields of the Python dataclass live on findings, not assets.
Fields the reference parser never sets (tags, environment, owner, department,
criticality, network_zone, os_version, name) keep their `None`/empty
defaults. -/
structure RawAsset where
  identifier : String
  asset_type : AssetType := .host
  name : Option String := none
  ip_address : Option String := none
  hostname : Option String := none
  mac_address : Option String := none
  fqdn : Option String := none
  netbios_name : Option String := none
  os_name : Option String := none
  os_version : Option String := none
  os_family : Option String := none
  scanner : String := ""
  scan_start : Option Nat := none
  scan_end : Option Nat := none
  metadata : List (String × Option String) := []
deriving DecidableEq, Repr

/-- The reference-id collections gathered by the parser: the only keys ever
written into the `reference_ids` dict are `bugtraq`, `microsoft` (lists) and
`xref` (a single string). -/
structure ReferenceIds where
  bugtraq : List String := []
  microsoft : List String := []
  xref : Option String := none
deriving DecidableEq, Repr

/-- Normalized finding extracted from the scanner (`RawFinding`).  CVSS
scores are kept as the raw extracted strings (`float(...)` conversion is a
lossless-for-our-claims relabelling; no claim constrains the numeric
value). -/
structure RawFinding where
  title : String
  severity : NormalizedSeverity
  scanner : String
  asset_identifier : String
  description : Option String := none
  solution : Option String := none
  synopsis : Option String := none
  location : Option String := none
  port : Option Nat := none
  protocol : Option String := none
  service : Option String := none
  original_severity : Option String := none
  risk_factor : Option String := none
  cwe : Option String := none
  cves : List String := []
  cvss_score : Option String := none
  cvss_vector : Option String := none
  cvss3_score : Option String := none
  cvss3_vector : Option String := none
  references : List String := []
  reference_ids : Option ReferenceIds := none
  plugin_id : Option String := none
  plugin_name : Option String := none
  plugin_family : Option String := none
  plugin_type : Option String := none
  plugin_output : Option String := none
  scanner_finding_id : Option String := none
  extras : List (String × Option String) := []
  fingerprint : Option String := none
deriving DecidableEq, Repr

/-- Result of parsing one scan file (`ScanResult`).  `findings_by_severity`
is the dict keyed by the five severity values, modelled as a total map. -/
structure ScanResult where
  scanner : String
  scanner_version : Option String := none
  scan_name : Option String := none
  scan_policy : Option String := none
  scan_start : Option Nat := none
  scan_end : Option Nat := none
  assets : List RawAsset := []
  findings : List RawFinding := []
  total_hosts : Nat := 0
  total_findings : Nat := 0
  findings_by_severity : NormalizedSeverity → Nat := fun _ => 0
  errors : List String := []
  warnings : List String := []

/-! ## Nessus severity tables and fingerprint (app/adapters/nessus.py) -/

/-- `NESSUS_SEVERITY_MAP` (risk_factor, lower-cased, to normalized). -/
def NESSUS_SEVERITY_MAP : List (String × NormalizedSeverity) :=
  [("critical", .critical), ("high", .high), ("medium", .medium),
   ("low", .low), ("none", .info), ("informational", .info), ("info", .info)]

/-- `NESSUS_NUMERIC_SEVERITY_MAP` (severity attribute to normalized). -/
def NESSUS_NUMERIC_SEVERITY_MAP : List (String × NormalizedSeverity) :=
  [("4", .critical), ("3", .high), ("2", .medium), ("1", .low), ("0", .info)]

/-- `NessusAdapter._normalize_severity`: try the textual risk factor first,
fall back to the numeric severity attribute, default to Info. -/
def normalizeSeverity (riskFactor severityNum : String) : NormalizedSeverity :=
  let fromRisk : Option NormalizedSeverity :=
    if riskFactor ≠ "" then NESSUS_SEVERITY_MAP.lookup (pyLower riskFactor)
    else none
  match fromRisk with
  | some v => v
  | none =>
      match NESSUS_NUMERIC_SEVERITY_MAP.lookup severityNum with
      | some v => v
      | none => .info

/-- `NessusAdapter._generate_fingerprint`: join the component list with
`"|"`, SHA-256 it, and keep the first 32 hex characters. -/
def generateFingerprint (finding : RawFinding) (asset : RawAsset) : String :=
  let components : List String :=
    [pyLower asset.identifier, pyOrStr finding.plugin_id finding.title]
  let components :=
    match finding.port with
    | some p => if p ≠ 0 then
        components ++ [toString p ++ "/" ++ pyOrStr finding.protocol "tcp"]
      else components
    | none => components
  let components :=
    if finding.cves ≠ [] then
      components ++ [String.intercalate "," (pySorted finding.cves)]
    else components
  let fingerprintStr := String.intercalate "|" components
  String.mk ((sha256HexOfString fingerprintStr).data.take 32)

/-! ## Claims C1, C6, C10 -/

/-- C1: the fingerprint is a deterministic function of (lower-cased asset
identifier, plugin id falling back to title, port, protocol, CVE set): two
computations whose inputs agree on these components -- in particular whose
CVE lists are permutations of each other -- return byte-identical
fingerprints.  `generateFingerprint` is a pure Lean function of its two
arguments, so there is no dependence on time or randomness. -/
theorem claim_C1_fingerprint_determinism (a1 a2 : RawAsset) (f1 f2 : RawFinding)
    (hid : pyLower a1.identifier = pyLower a2.identifier)
    (hplug : pyOrStr f1.plugin_id f1.title = pyOrStr f2.plugin_id f2.title)
    (hport : f1.port = f2.port)
    (hproto : f1.protocol = f2.protocol)
    (hcves : f1.cves.Perm f2.cves) :
    generateFingerprint f1 a1 = generateFingerprint f2 a2 := by
  by_cases hc : f1.cves = []
  · have hc2 : f2.cves = [] := by
      have hlen := hcves.length_eq
      rw [hc] at hlen
      exact List.length_eq_zero.mp hlen.symm
    simp [generateFingerprint, hid, hplug, hport, hproto, hc, hc2]
  · have hc2 : f2.cves ≠ [] := by
      intro h2
      refine hc (List.length_eq_zero.mp ?_)
      rw [hcves.length_eq, h2]
      rfl
    simp [generateFingerprint, hid, hplug, hport, hproto, hc, hc2,
      pySorted_eq_of_perm hcves]

def c1Asset1 : RawAsset := { identifier := "Host-7.Example.COM" }

def c1Asset2 : RawAsset := { identifier := "host-7.example.com" }

def c1Finding1 : RawFinding :=
  { title := "TLS Cert Expired", severity := .high, scanner := "nessus",
    asset_identifier := "Host-7.Example.COM", plugin_id := some "12345",
    port := some 443, protocol := some "tcp",
    cves := ["CVE-2021-1111", "CVE-2021-0001"] }

def c1Finding2 : RawFinding :=
  { c1Finding1 with
    asset_identifier := "host-7.example.com",
    cves := ["CVE-2021-0001", "CVE-2021-1111"] }

/-- Witness for C1 at a concrete pair of inputs whose CVE lists are permuted
and whose identifiers differ only in case. -/
theorem claim_C1_fingerprint_determinism_witness :
    generateFingerprint c1Finding1 c1Asset1 = generateFingerprint c1Finding2 c1Asset2 :=
  claim_C1_fingerprint_determinism c1Asset1 c1Asset2 c1Finding1 c1Finding2
    (by decide) (by decide) rfl rfl (by decide)

/-- C6: severity resolution tries the textual risk label first (fixed table,
case-insensitive); only when the label is absent or unrecognized is the
numeric table consulted; if neither matches, the result is Info.  The first
conjunct holds for every numeric attribute `sn`, so a recognized textual
label overrides any conflicting numeric severity. -/
theorem claim_C6_severity_precedence (rf sn : String) :
    (rf ≠ "" → ∀ v, NESSUS_SEVERITY_MAP.lookup (pyLower rf) = some v →
      normalizeSeverity rf sn = v) ∧
    ((rf = "" ∨ NESSUS_SEVERITY_MAP.lookup (pyLower rf) = none) →
      ∀ v, NESSUS_NUMERIC_SEVERITY_MAP.lookup sn = some v →
        normalizeSeverity rf sn = v) ∧
    ((rf = "" ∨ NESSUS_SEVERITY_MAP.lookup (pyLower rf) = none) →
      NESSUS_NUMERIC_SEVERITY_MAP.lookup sn = none →
      normalizeSeverity rf sn = NormalizedSeverity.info) := by
  refine ⟨?_, ?_, ?_⟩
  · intro hrf v hv
    simp [normalizeSeverity, hrf, hv]
  · intro habs v hv
    rcases habs with h | h
    · simp [normalizeSeverity, h, hv]
    · by_cases hrf : rf = ""
      · simp [normalizeSeverity, hrf, hv]
      · simp [normalizeSeverity, hrf, h, hv]
  · intro habs hn
    rcases habs with h | h
    · simp [normalizeSeverity, h, hn]
    · by_cases hrf : rf = ""
      · simp [normalizeSeverity, hrf, hn]
      · simp [normalizeSeverity, hrf, h, hn]

/-- Witness for C6: the textual label "Critical" overrides the conflicting
numeric attribute "0"; with the label absent, the numeric attribute "3"
resolves to High; with both unrecognized, the result is Info. -/
theorem claim_C6_severity_precedence_witness :
    normalizeSeverity "Critical" "0" = NormalizedSeverity.critical ∧
    normalizeSeverity "" "3" = NormalizedSeverity.high ∧
    normalizeSeverity "strange" "9" = NormalizedSeverity.info :=
  ⟨(claim_C6_severity_precedence "Critical" "0").1 (by decide)
      NormalizedSeverity.critical (by decide),
   (claim_C6_severity_precedence "" "3").2.1 (Or.inl rfl)
      NormalizedSeverity.high (by decide),
   (claim_C6_severity_precedence "strange" "9").2.2 (Or.inr (by decide)) (by decide)⟩

/-- C10: in fingerprint computation a missing protocol defaults to "tcp":
for every asset and finding with a port present, the fingerprint computed
with protocol `None` equals the fingerprint computed with protocol "tcp". -/
theorem claim_C10_protocol_defaults_tcp (a : RawAsset) (f : RawFinding) (p : Nat)
    (hp : f.port = some p) :
    generateFingerprint { f with protocol := none } a
      = generateFingerprint { f with protocol := some "tcp" } a := by
  simp [generateFingerprint, hp, pyOrStr]

def c10Asset : RawAsset := { identifier := "10.0.0.1" }

def c10Finding : RawFinding :=
  { title := "Open Port", severity := .low, scanner := "nessus",
    asset_identifier := "10.0.0.1", plugin_id := some "99", port := some 443 }

/-- Witness for C10 at a concrete finding with port 443. -/
theorem claim_C10_protocol_defaults_tcp_witness :
    c10Finding.port = some 443 ∧
    generateFingerprint { c10Finding with protocol := none } c10Asset
      = generateFingerprint { c10Finding with protocol := some "tcp" } c10Asset :=
  ⟨rfl, claim_C10_protocol_defaults_tcp c10Asset c10Finding 443 rfl⟩

/-! ## Nessus XML input model

The XML tree produced by `ET.fromstring`, restricted to the shape the
adapter traverses: `ReportHost` elements with a `HostProperties` bag and
`ReportItem` children; element attributes and child-element texts. -/

structure NTag where
  nameAttr : Option String
  text : Option String
deriving DecidableEq, Repr

structure NReportItem where
  attrs : List (String × String) := []
  children : List (String × Option String) := []
deriving DecidableEq, Repr

structure NReportHost where
  nameAttr : Option String := none
  hostProps : Option (List NTag) := none
  items : List NReportItem := []
deriving DecidableEq, Repr

/-- The whole parsed document: the `ReportHost` list plus the metadata nodes
`Report` (name attribute), `Policy/policyName` and the `sc_version`
preference, each `none` when the element is absent. -/
structure NessusXml where
  reportName : Option (Option String) := none
  policyName : Option (Option String) := none
  scVersion : Option (Option String) := none
  hosts : List NReportHost := []
deriving DecidableEq, Repr

/-- `Element.get(key, default)` on an attribute list. -/
def attrGet (attrs : List (String × String)) (k d : String) : String :=
  ((attrs.find? (fun p => p.1 = k)).map (fun p => p.2)).getD d

/-- `Element.find(tag)` over child elements: first child with the tag,
returning its text. -/
def findChild (cs : List (String × Option String)) (tag : String) :
    Option (Option String) :=
  (cs.find? (fun c => c.1 = tag)).map (fun c => c.2)

/-- `Element.findall(tag)` over child elements: texts of all children with
the tag, in document order. -/
def findAllChildren (cs : List (String × Option String)) (tag : String) :
    List (Option String) :=
  (cs.filter (fun c => c.1 = tag)).map (fun c => c.2)

/-- The local helper `get_text` of `_parse_report_item`:
`elem.text.strip() if elem is not None and elem.text else None`. -/
def getTextOf (item : NReportItem) (tag : String) : Option String :=
  match findChild item.children tag with
  | some (some t) => if t ≠ "" then some (pyStrip t) else none
  | _ => none

/-- Python dict assignment `d[k] = v`: any earlier binding of `k` is
replaced; `List.find?`-based lookups then see the latest value. -/
def dictInsert (props : List (String × String)) (k v : String) :
    List (String × String) :=
  (props.filter (fun p => p.1 ≠ k)) ++ [(k, v)]

/-- Python `d.get(k, default)`. -/
def dictGet (props : List (String × String)) (k d : String) : String :=
  ((props.find? (fun p => p.1 = k)).map (fun p => p.2)).getD d

/-- Python `d.get(k)` (defaulting to `None`). -/
def dictGetOpt (props : List (String × String)) (k : String) : Option String :=
  (props.find? (fun p => p.1 = k)).map (fun p => p.2)

/-! ## NessusAdapter parsing helpers -/

/-- `NessusAdapter.SKIP_PLUGIN_IDS`. -/
def SKIP_PLUGIN_IDS : List String :=
  ["19506", "10180", "11219", "34220", "14272", "34277"]

/-- `MIN_SEVERITY_LEVEL` (include everything, Info included). -/
def MIN_SEVERITY_LEVEL : Int := 0

/-- `OS_FAMILY_PATTERNS`: ordered (regex, family) pairs, first match wins. -/
def OS_FAMILY_PATTERNS : List (String × String) :=
  [("windows", "Windows"), ("linux", "Linux"), ("ubuntu", "Linux"),
   ("debian", "Linux"), ("centos", "Linux"), ("red\\s*hat", "Linux"),
   ("rhel", "Linux"), ("fedora", "Linux"), ("suse", "Linux"),
   ("mac\\s*os|darwin|osx", "macOS"), ("freebsd", "BSD"), ("openbsd", "BSD"),
   ("netbsd", "BSD"), ("solaris|sunos", "Solaris"), ("aix", "AIX"),
   ("hp-ux", "HP-UX"), ("cisco\\s*ios", "Cisco IOS"), ("junos", "Juniper JunOS"),
   ("vmware\\s*esx", "VMware ESXi")]

/-- `NessusAdapter._detect_os_family`.  Regular-expression search is taken
as an oracle parameter `re pattern s` (model of `re.search(pattern, s)`);
no claim depends on the regex semantics themselves. -/
def detectOsFamily (re : String → String → Bool) (osName : String) :
    Option String :=
  if osName = "" then none
  else
    match OS_FAMILY_PATTERNS.find? (fun p => re p.1 (pyLower osName)) with
    | some p => some p.2
    | none => none

/-- `NessusAdapter._parse_timestamp`.  `datetime.strptime` against the
candidate format list is taken as an oracle parameter
`ts : String → Option Nat` (`Nat` is order-isomorphic to the `datetime`
values that can arise); falsy input yields `None` before the oracle runs. -/
def parseTimestamp (ts : String → Option Nat) (v : Option String) : Option Nat :=
  match v with
  | none => none
  | some s => if s = "" then none else ts s

/-- `NessusAdapter._is_valid_ip`: four dot-separated parts, each an integer
in [0, 255]; a `ValueError` from `int(...)` is caught and yields `False`. -/
def isValidIp (value : String) : Bool :=
  if value = "" then false
  else
    let parts := pySplitChar '.' value
    parts.length = 4 ∧ parts.all (fun p =>
      match pyInt p with
      | .ok n => 0 ≤ n ∧ n ≤ 255
      | .error _ => false)

/-- `NessusAdapter._truncate`. -/
def pyTruncate (v : Option String) (maxLength : Nat) : Option String :=
  match v with
  | none => none
  | some s =>
      if s = "" then none
      else if s.data.length ≤ maxLength then some s
      else some (String.mk (s.data.take (maxLength - 3)) ++ "...")

/-- `NessusAdapter._parse_host_properties`: collect `tag` elements of
`HostProperties` into a dict keyed by the `name` attribute. -/
def parseHostProperties (host : NReportHost) : List (String × String) :=
  match host.hostProps with
  | none => []
  | some tags =>
      tags.foldl (fun props tag =>
        let name := tag.nameAttr.getD ""
        let value := tag.text.getD ""
        if name ≠ "" then dictInsert props name value else props) []

/-- Merge a host scan-start into the running minimum
(`if scan_start and (not result.scan_start or scan_start < result.scan_start)`). -/
def mergeScanStart (s cur : Option Nat) : Option Nat :=
  match s, cur with
  | some v, none => some v
  | some v, some c => if v < c then some v else some c
  | none, c => c

/-- Merge a host scan-end into the running maximum. -/
def mergeScanEnd (s cur : Option Nat) : Option Nat :=
  match s, cur with
  | some v, none => some v
  | some v, some c => if v > c then some v else some c
  | none, c => c

/-- The in-place update of `result.scan_start` / `result.scan_end` performed
at the end of `_create_asset`. -/
def updateScanTimes (ss se : Option Nat) (r : ScanResult) : ScanResult :=
  { r with scan_start := mergeScanStart ss r.scan_start,
           scan_end := mergeScanEnd se r.scan_end }

/-- The asset built by `NessusAdapter._create_asset` (pure part). -/
def createAssetOnly (ts : String → Option Nat) (re : String → String → Bool)
    (hostName : String) (props : List (String × String)) : RawAsset :=
  let ip_address := dictGet props "host-ip" hostName
  let hostname := dictGet props "hostname" (dictGet props "netbios-name" "")
  let os_name := dictGet props "operating-system" ""
  let identifier := if isValidIp ip_address then ip_address else hostName
  { identifier := identifier,
    asset_type := if isValidIp identifier then AssetType.ip else AssetType.host,
    ip_address := if isValidIp ip_address then some ip_address else none,
    hostname := if hostname ≠ "" then some hostname else none,
    fqdn := dictGetOpt props "host-fqdn",
    netbios_name := dictGetOpt props "netbios-name",
    mac_address := dictGetOpt props "mac-address",
    os_name := if os_name ≠ "" then some os_name else none,
    os_family := detectOsFamily re os_name,
    scanner := "nessus",
    scan_start := parseTimestamp ts (dictGetOpt props "HOST_START"),
    scan_end := parseTimestamp ts (dictGetOpt props "HOST_END"),
    metadata :=
      [("system_type", dictGetOpt props "system-type"),
       ("traceroute_hop_0", dictGetOpt props "traceroute-hop-0"),
       ("local_checks_proto", dictGetOpt props "local-checks-proto"),
       ("smb_login_used", dictGetOpt props "smb-login-used"),
       ("ssh_login_used", dictGetOpt props "ssh-auth-meth"),
       ("credentialed_scan", dictGetOpt props "Credentialed_Scan"),
       ("patch_summary_total_cves", dictGetOpt props "patch-summary-total-cves")] }

/-- `NessusAdapter._create_asset`: build the asset and push its scan window
into the running result. -/
def createAsset (ts : String → Option Nat) (re : String → String → Bool)
    (hostName : String) (props : List (String × String)) (result : ScanResult) :
    RawAsset × ScanResult :=
  let asset := createAssetOnly ts re hostName props
  (asset, updateScanTimes asset.scan_start asset.scan_end result)

/-- Collect the non-falsy texts of repeated child elements, each transformed
by `f` (the `for elem in findall(tag): if elem.text: append(f(elem.text))`
pattern). -/
def collectTexts (item : NReportItem) (tag : String) (f : String → String) :
    List String :=
  (findAllChildren item.children tag).foldl (fun acc t =>
    match t with
    | some txt => if txt ≠ "" then acc ++ [f txt] else acc
    | none => acc) []

/-- `NessusAdapter._parse_report_item`.  Returns `Except` because `int(...)`
on a non-numeric `severity` attribute raises, and that exception escapes to
the per-host handler in `parse`; `Option` because skipped items return
`None`. -/
def parseReportItem (item : NReportItem) (asset : RawAsset) :
    Except String (Option RawFinding) := do
  let plugin_id := attrGet item.attrs "pluginID" ""
  let port := attrGet item.attrs "port" "0"
  let protocol := attrGet item.attrs "protocol" ""
  let service := attrGet item.attrs "svc_name" ""
  let plugin_name := attrGet item.attrs "pluginName" ""
  let plugin_family := attrGet item.attrs "pluginFamily" ""
  let severity_num := attrGet item.attrs "severity" "0"
  if SKIP_PLUGIN_IDS.contains plugin_id then
    return none
  let sevInt ← pyInt severity_num
  if sevInt < MIN_SEVERITY_LEVEL then
    return none
  let risk_factor := (getTextOf item "risk_factor").getD ""
  let severity := normalizeSeverity risk_factor severity_num
  let description := getTextOf item "description"
  let solution := getTextOf item "solution"
  let synopsis := getTextOf item "synopsis"
  if plugin_name = "" ∧ ¬ pyTruthyOptStr description then
    return none
  let cves := collectTexts item "cve" (fun t => pyUpper (pyStrip t))
  let cwe : Option String :=
    match findChild item.children "cwe" with
    | some (some t) => if t ≠ "" then some ("CWE-" ++ pyStrip t) else none
    | _ => none
  let references :=
    match getTextOf item "see_also" with
    | some sa =>
        if sa = "" then [] else
          (pySplitChar '\n' sa).foldl (fun acc ref =>
            let r := pyStrip ref
            if r ≠ "" ∧ (pyStartsWith "http://" r ∨ pyStartsWith "https://" r)
            then acc ++ [r] else acc) []
    | none => []
  let bugtraq := collectTexts item "bid" pyStrip
  let microsoft := collectTexts item "msft" pyStrip
  let xref : Option String :=
    match findChild item.children "xref" with
    | some (some t) => if t ≠ "" then some (pyStrip t) else none
    | _ => none
  let reference_ids : Option ReferenceIds :=
    if bugtraq = [] ∧ microsoft = [] ∧ xref = none then none
    else some { bugtraq := bugtraq, microsoft := microsoft, xref := xref }
  let plugin_output := getTextOf item "plugin_output"
  let port_int := if pyIsDigit port then digitsToNat port.data else 0
  let location : Option String :=
    if port_int > 0 then some (port ++ "/" ++ protocol) else none
  let location : Option String :=
    if service ≠ "" ∧ service ≠ "general" then
      match location with
      | some l => some (l ++ " (" ++ service ++ ")")
      | none => some service
    else location
  let finding : RawFinding :=
    { title := plugin_name,
      description := description,
      solution := solution,
      synopsis := synopsis,
      severity := severity,
      original_severity := some (pyOrStr (some risk_factor)
        ("severity_" ++ severity_num)),
      risk_factor := some risk_factor,
      scanner := "nessus",
      asset_identifier := asset.identifier,
      location := location,
      port := if port_int > 0 then some port_int else none,
      protocol := if protocol ≠ "" then some protocol else none,
      service := if service ≠ "" ∧ service ≠ "general" then some service else none,
      cwe := cwe,
      cves := cves,
      cvss_score := getTextOf item "cvss_base_score",
      cvss_vector := getTextOf item "cvss_vector",
      cvss3_score := getTextOf item "cvss3_base_score",
      cvss3_vector := getTextOf item "cvss3_vector",
      references := references,
      reference_ids := reference_ids,
      plugin_id := some plugin_id,
      plugin_name := some plugin_name,
      plugin_family := some plugin_family,
      plugin_type := getTextOf item "plugin_type",
      plugin_output := pyTruncate plugin_output 10000,
      scanner_finding_id := some plugin_id,
      extras :=
        [("exploit_available", getTextOf item "exploit_available"),
         ("exploitability_ease", getTextOf item "exploitability_ease"),
         ("exploit_framework_core", getTextOf item "exploit_framework_core"),
         ("exploit_framework_metasploit",
          getTextOf item "exploit_framework_metasploit"),
         ("exploit_framework_canvas", getTextOf item "exploit_framework_canvas"),
         ("in_the_news", getTextOf item "in_the_news"),
         ("exploited_by_malware", getTextOf item "exploited_by_malware"),
         ("patch_publication_date", getTextOf item "patch_publication_date"),
         ("vuln_publication_date", getTextOf item "vuln_publication_date"),
         ("plugin_publication_date", getTextOf item "plugin_publication_date"),
         ("plugin_modification_date", getTextOf item "plugin_modification_date"),
         ("age_of_vuln", getTextOf item "age_of_vuln"),
         ("thorough_tests", getTextOf item "thorough_tests")],
      fingerprint := none }
  return some { finding with fingerprint := some (generateFingerprint finding asset) }

/-- `NessusAdapter._parse_host`: build the asset, then parse every
`ReportItem`.  There is no per-item handler, so the first item exception
aborts the host (the asset and the findings parsed so far are discarded);
the scan-time update on `result` made by `_create_asset` survives because
`result` is mutated in place. -/
def hostFindingsFold (asset : RawAsset) (items : List NReportItem) :
    Except String (List RawFinding) :=
  items.foldlM (fun acc item => do
    let f ← parseReportItem item asset
    match f with
    | some finding => pure (acc ++ [finding])
    | none => pure acc) ([] : List RawFinding)

def parseHost (ts : String → Option Nat) (re : String → String → Bool)
    (result : ScanResult) (host : NReportHost) :
    ScanResult × Except String (RawAsset × List RawFinding) :=
  let hostName := host.nameAttr.getD ""
  let props := parseHostProperties host
  let (asset, result) := createAsset ts re hostName props result
  let findingsE := hostFindingsFold asset host.items
  (result, findingsE.map (fun fs => (asset, fs)))

/-- `NessusAdapter._parse_scan_metadata`. -/
def parseScanMetadata (xml : NessusXml) (result : ScanResult) : ScanResult :=
  let result :=
    match xml.reportName with
    | some nameAttr => { result with scan_name := nameAttr }
    | none => result
  let result :=
    match xml.policyName with
    | some (some t) => if t ≠ "" then { result with scan_policy := some t } else result
    | _ => result
  match xml.scVersion with
  | some (some t) => if t ≠ "" then { result with scanner_version := some t } else result
  | _ => result

/-- The per-finding bookkeeping inside the host loop of `parse`: append the
finding and bump its severity counter. -/
def recordFinding (r : ScanResult) (f : RawFinding) : ScanResult :=
  { r with findings := r.findings ++ [f],
           findings_by_severity := fun s =>
             if s = f.severity then r.findings_by_severity s + 1
             else r.findings_by_severity s }

/-- The ASCII apostrophe used in the host error message of `parse`. -/
def squote : String := String.mk [Char.ofNat 39]

/-- The body of the `for host_elem in report_hosts` loop of `parse`: on
success append the asset (always truthy) and record each finding; on an
exception append an error naming the host and continue. -/
def hostStep (ts : String → Option Nat) (re : String → String → Bool)
    (r : ScanResult) (host : NReportHost) : ScanResult :=
  let r2 := (parseHost ts re r host).1
  match (parseHost ts re r host).2 with
  | .ok (asset, findings) =>
      findings.foldl recordFinding { r2 with assets := r2.assets ++ [asset] }
  | .error e =>
      { r2 with errors := r2.errors ++
          ["Error parsing host " ++ squote ++ host.nameAttr.getD "unknown"
            ++ squote ++ ": " ++ e] }

/-- The ScanResult constructed at the top of `parse`: scanner name plus the
zero-initialized severity-count dict. -/
def initialResult : ScanResult :=
  { scanner := "nessus", findings_by_severity := fun _ => 0 }

/-- `NessusAdapter.parse` for an input whose XML container parsed (the
`ET.ParseError` branch re-raises and is outside this function).  Total: a
per-host exception is caught by the loop handler and no other statement can
raise, so parse never raises once the container parsed. -/
def nessusParse (ts : String → Option Nat) (re : String → String → Bool)
    (xml : NessusXml) : ScanResult :=
  let result : ScanResult := initialResult
  let result := parseScanMetadata xml result
  if xml.hosts.isEmpty then
    { result with warnings := result.warnings ++ ["No hosts found in scan file"] }
  else
    let result := { result with total_hosts := xml.hosts.length }
    let result := xml.hosts.foldl (hostStep ts re) result
    { result with total_findings := result.findings.length }

/-! ## Structural lemmas about the host loop of `parse` -/

/-- Per-host outcome (asset and findings, or the exception).  `_parse_host`
reads the running result only to update its scan-time window, so the
outcome is independent of the accumulated state. -/
def hostOutcome (ts : String → Option Nat) (re : String → String → Bool)
    (host : NReportHost) : Except String (RawAsset × List RawFinding) :=
  (parseHost ts re { scanner := "nessus", findings_by_severity := fun _ => 0 }
    host).2

theorem parseHost_snd (ts : String → Option Nat) (re : String → String → Bool)
    (r : ScanResult) (host : NReportHost) :
    (parseHost ts re r host).2 = hostOutcome ts re host := rfl

/-- Findings contributed by one host: all of its reportable items when every
item parses, none when any item raises. -/
def hostFs (ts : String → Option Nat) (re : String → String → Bool)
    (host : NReportHost) : List RawFinding :=
  match hostOutcome ts re host with
  | .ok (_, fs) => fs
  | .error _ => []

/-- Error-log entry contributed by one host. -/
def hostErrMsg (ts : String → Option Nat) (re : String → String → Bool)
    (host : NReportHost) : Option String :=
  match hostOutcome ts re host with
  | .error e => some ("Error parsing host " ++ squote ++ host.nameAttr.getD "unknown"
      ++ squote ++ ": " ++ e)
  | .ok _ => none

/-- Asset contributed by one host (none when the host raised). -/
def hostAssetOpt (ts : String → Option Nat) (re : String → String → Bool)
    (host : NReportHost) : Option RawAsset :=
  match hostOutcome ts re host with
  | .ok (a, _) => some a
  | .error _ => none

@[simp] theorem parseHost_fst_findings (ts : String → Option Nat)
    (re : String → String → Bool) (r : ScanResult) (host : NReportHost) :
    ((parseHost ts re r host).1).findings = r.findings := rfl

@[simp] theorem parseHost_fst_errors (ts : String → Option Nat)
    (re : String → String → Bool) (r : ScanResult) (host : NReportHost) :
    ((parseHost ts re r host).1).errors = r.errors := rfl

@[simp] theorem parseHost_fst_assets (ts : String → Option Nat)
    (re : String → String → Bool) (r : ScanResult) (host : NReportHost) :
    ((parseHost ts re r host).1).assets = r.assets := rfl

@[simp] theorem parseHost_fst_counts (ts : String → Option Nat)
    (re : String → String → Bool) (r : ScanResult) (host : NReportHost) :
    ((parseHost ts re r host).1).findings_by_severity = r.findings_by_severity := rfl

/-- Number of findings in `l` with severity `s`. -/
def sevCount (l : List RawFinding) (s : NormalizedSeverity) : Nat :=
  (l.filter (fun f => f.severity = s)).length

/-- The counts dict is consistent with the findings list. -/
def countsOk (r : ScanResult) : Prop :=
  ∀ s, r.findings_by_severity s = sevCount r.findings s

theorem foldl_recordFinding_findings (fs : List RawFinding) (r : ScanResult) :
    (fs.foldl recordFinding r).findings = r.findings ++ fs := by
  induction fs generalizing r with
  | nil => simp
  | cons f fs ih => simp [List.foldl_cons, ih, recordFinding]

theorem foldl_recordFinding_errors (fs : List RawFinding) (r : ScanResult) :
    (fs.foldl recordFinding r).errors = r.errors := by
  induction fs generalizing r with
  | nil => rfl
  | cons f fs ih => simp [List.foldl_cons, ih, recordFinding]

theorem foldl_recordFinding_assets (fs : List RawFinding) (r : ScanResult) :
    (fs.foldl recordFinding r).assets = r.assets := by
  induction fs generalizing r with
  | nil => rfl
  | cons f fs ih => simp [List.foldl_cons, ih, recordFinding]

theorem recordFinding_countsOk (r : ScanResult) (f : RawFinding)
    (h : countsOk r) : countsOk (recordFinding r f) := by
  intro s
  show (if s = f.severity then r.findings_by_severity s + 1
        else r.findings_by_severity s) = sevCount (r.findings ++ [f]) s
  rw [h s]
  simp only [sevCount, List.filter_append, List.length_append]
  by_cases hs : s = f.severity
  · simp [List.filter_cons, hs]
  · have hs2 : ¬ (f.severity = s) := fun h2 => hs h2.symm
    simp [List.filter_cons, hs, hs2]

theorem foldl_recordFinding_countsOk (fs : List RawFinding) (r : ScanResult)
    (h : countsOk r) : countsOk (fs.foldl recordFinding r) := by
  induction fs generalizing r with
  | nil => exact h
  | cons f fs ih => exact ih _ (recordFinding_countsOk r f h)

theorem hostStep_findings (ts : String → Option Nat) (re : String → String → Bool)
    (r : ScanResult) (host : NReportHost) :
    (hostStep ts re r host).findings = r.findings ++ hostFs ts re host := by
  unfold hostStep hostFs
  rw [parseHost_snd]
  cases hO : hostOutcome ts re host with
  | ok p =>
      obtain ⟨a, fs⟩ := p
      simp [foldl_recordFinding_findings]
  | error e => simp

theorem hostStep_errors (ts : String → Option Nat) (re : String → String → Bool)
    (r : ScanResult) (host : NReportHost) :
    (hostStep ts re r host).errors = r.errors ++ (hostErrMsg ts re host).toList := by
  unfold hostStep hostErrMsg
  rw [parseHost_snd]
  cases hO : hostOutcome ts re host with
  | ok p =>
      obtain ⟨a, fs⟩ := p
      simp [foldl_recordFinding_errors]
  | error e => simp

theorem hostStep_assets (ts : String → Option Nat) (re : String → String → Bool)
    (r : ScanResult) (host : NReportHost) :
    (hostStep ts re r host).assets = r.assets ++ (hostAssetOpt ts re host).toList := by
  unfold hostStep hostAssetOpt
  rw [parseHost_snd]
  cases hO : hostOutcome ts re host with
  | ok p =>
      obtain ⟨a, fs⟩ := p
      simp [foldl_recordFinding_assets]
  | error e => simp

theorem hostStep_countsOk (ts : String → Option Nat) (re : String → String → Bool)
    (r : ScanResult) (host : NReportHost) (h : countsOk r) :
    countsOk (hostStep ts re r host) := by
  unfold hostStep
  rw [parseHost_snd]
  cases hO : hostOutcome ts re host with
  | ok p =>
      obtain ⟨a, fs⟩ := p
      refine foldl_recordFinding_countsOk fs _ ?_
      intro s
      simpa [sevCount] using h s
  | error e =>
      intro s
      simpa [sevCount] using h s

theorem foldl_hostStep_findings (ts : String → Option Nat)
    (re : String → String → Bool) (l : List NReportHost) (r : ScanResult) :
    (l.foldl (hostStep ts re) r).findings
      = r.findings ++ (l.map (hostFs ts re)).flatten := by
  induction l generalizing r with
  | nil => simp
  | cons h l ih => simp [List.foldl_cons, ih, hostStep_findings]

theorem foldl_hostStep_errors (ts : String → Option Nat)
    (re : String → String → Bool) (l : List NReportHost) (r : ScanResult) :
    (l.foldl (hostStep ts re) r).errors
      = r.errors ++ l.filterMap (hostErrMsg ts re) := by
  induction l generalizing r with
  | nil => simp
  | cons h l ih =>
      simp only [List.foldl_cons, ih, hostStep_errors, List.filterMap_cons]
      cases hostErrMsg ts re h <;> simp

theorem foldl_hostStep_assets (ts : String → Option Nat)
    (re : String → String → Bool) (l : List NReportHost) (r : ScanResult) :
    (l.foldl (hostStep ts re) r).assets
      = r.assets ++ l.filterMap (hostAssetOpt ts re) := by
  induction l generalizing r with
  | nil => simp
  | cons h l ih =>
      simp only [List.foldl_cons, ih, hostStep_assets, List.filterMap_cons]
      cases hostAssetOpt ts re h <;> simp

theorem foldl_hostStep_countsOk (ts : String → Option Nat)
    (re : String → String → Bool) (l : List NReportHost) (r : ScanResult)
    (h : countsOk r) : countsOk (l.foldl (hostStep ts re) r) := by
  induction l generalizing r with
  | nil => exact h
  | cons hh l ih => exact ih _ (hostStep_countsOk ts re r hh h)

theorem parseScanMetadata_findings (xml : NessusXml) (r : ScanResult) :
    (parseScanMetadata xml r).findings = r.findings := by
  unfold parseScanMetadata
  repeat' split
  all_goals rfl

theorem parseScanMetadata_errors (xml : NessusXml) (r : ScanResult) :
    (parseScanMetadata xml r).errors = r.errors := by
  unfold parseScanMetadata
  repeat' split
  all_goals rfl

theorem parseScanMetadata_assets (xml : NessusXml) (r : ScanResult) :
    (parseScanMetadata xml r).assets = r.assets := by
  unfold parseScanMetadata
  repeat' split
  all_goals rfl

theorem parseScanMetadata_counts (xml : NessusXml) (r : ScanResult) :
    (parseScanMetadata xml r).findings_by_severity = r.findings_by_severity := by
  unfold parseScanMetadata
  repeat' split
  all_goals rfl

/-! ## Claims C5, C2, C7 -/

theorem sum_sevCount (l : List RawFinding) :
    sevCount l .critical + sevCount l .high + sevCount l .medium
      + sevCount l .low + sevCount l .info = l.length := by
  induction l with
  | nil => simp [sevCount]
  | cons f l ih =>
      cases hs : f.severity <;>
        simp [sevCount, List.filter_cons, hs] at ih ⊢ <;> omega

@[simp] theorem parseScanMetadata_total_findings (xml : NessusXml) (r : ScanResult) :
    (parseScanMetadata xml r).total_findings = r.total_findings := by
  unfold parseScanMetadata
  repeat' split
  all_goals rfl

theorem withTotalHosts_findings (r : ScanResult) (n : Nat) :
    ({ r with total_hosts := n } : ScanResult).findings = r.findings := rfl

theorem withTotalHosts_errors (r : ScanResult) (n : Nat) :
    ({ r with total_hosts := n } : ScanResult).errors = r.errors := rfl

theorem withTotalHosts_assets (r : ScanResult) (n : Nat) :
    ({ r with total_hosts := n } : ScanResult).assets = r.assets := rfl

theorem withTotalFindings_findings (r : ScanResult) (n : Nat) :
    ({ r with total_findings := n } : ScanResult).findings = r.findings := rfl

theorem withTotalFindings_errors (r : ScanResult) (n : Nat) :
    ({ r with total_findings := n } : ScanResult).errors = r.errors := rfl

theorem withTotalFindings_assets (r : ScanResult) (n : Nat) :
    ({ r with total_findings := n } : ScanResult).assets = r.assets := rfl

theorem withTotalFindings_counts (r : ScanResult) (n : Nat) :
    ({ r with total_findings := n } : ScanResult).findings_by_severity
      = r.findings_by_severity := rfl

theorem withTotalFindings_total (r : ScanResult) (n : Nat) :
    ({ r with total_findings := n } : ScanResult).total_findings = n := rfl

/-- Value of `parse` on a file with no `ReportHost` elements. -/
theorem nessusParse_eq_nil (ts : String → Option Nat) (re : String → String → Bool)
    (xml : NessusXml) (h : xml.hosts.isEmpty = true) :
    nessusParse ts re xml
      = { parseScanMetadata xml initialResult with
          warnings := (parseScanMetadata xml initialResult).warnings
            ++ ["No hosts found in scan file"] } := by
  unfold nessusParse
  rw [h]
  rfl

/-- Value of `parse` on a file with at least one `ReportHost` element. -/
theorem nessusParse_eq_cons (ts : String → Option Nat) (re : String → String → Bool)
    (xml : NessusXml) (h : xml.hosts.isEmpty = false) :
    nessusParse ts re xml
      = { xml.hosts.foldl (hostStep ts re)
            { parseScanMetadata xml initialResult with
              total_hosts := xml.hosts.length } with
          total_findings :=
            (xml.hosts.foldl (hostStep ts re)
              { parseScanMetadata xml initialResult with
                total_hosts := xml.hosts.length }).findings.length } := by
  unfold nessusParse
  rw [h]
  rfl

/-- Joint characterization of `parse`: findings are the concatenation of the
per-host contributions, errors are the per-host error messages, assets come
from the hosts that parsed, `total_findings` matches the findings list, and
the severity-count dict is consistent with the findings list. -/
theorem nessusParse_spec (ts : String → Option Nat) (re : String → String → Bool)
    (xml : NessusXml) :
    (nessusParse ts re xml).findings = (xml.hosts.map (hostFs ts re)).flatten ∧
    (nessusParse ts re xml).errors = xml.hosts.filterMap (hostErrMsg ts re) ∧
    (nessusParse ts re xml).assets = xml.hosts.filterMap (hostAssetOpt ts re) ∧
    (nessusParse ts re xml).total_findings = (nessusParse ts re xml).findings.length ∧
    countsOk (nessusParse ts re xml) := by
  by_cases hxe : xml.hosts.isEmpty
  · have hnil : xml.hosts = [] := List.isEmpty_iff.mp hxe
    rw [nessusParse_eq_nil ts re xml hxe]
    have hf := parseScanMetadata_findings xml initialResult
    have he := parseScanMetadata_errors xml initialResult
    have ha := parseScanMetadata_assets xml initialResult
    have ht := parseScanMetadata_total_findings xml initialResult
    have hc := parseScanMetadata_counts xml initialResult
    refine ⟨?_, ?_, ?_, ?_, ?_⟩
    · rw [hnil]
      exact hf
    · rw [hnil]
      exact he
    · rw [hnil]
      exact ha
    · rw [show ({ parseScanMetadata xml initialResult with
          warnings := (parseScanMetadata xml initialResult).warnings
            ++ ["No hosts found in scan file"] } : ScanResult).total_findings
          = (parseScanMetadata xml initialResult).total_findings from rfl, ht, hf]
      rfl
    · intro s
      rw [show ({ parseScanMetadata xml initialResult with
          warnings := (parseScanMetadata xml initialResult).warnings
            ++ ["No hosts found in scan file"] } : ScanResult).findings_by_severity
          = (parseScanMetadata xml initialResult).findings_by_severity from rfl, hc]
      rw [show ({ parseScanMetadata xml initialResult with
          warnings := (parseScanMetadata xml initialResult).warnings
            ++ ["No hosts found in scan file"] } : ScanResult).findings
          = (parseScanMetadata xml initialResult).findings from rfl, hf]
      simp [sevCount, initialResult]
  · have hne : xml.hosts.isEmpty = false := by
      cases h2 : xml.hosts.isEmpty
      · rfl
      · exact absurd h2 hxe
    rw [nessusParse_eq_cons ts re xml hne]
    have hbase_f : ({ parseScanMetadata xml initialResult with
        total_hosts := xml.hosts.length } : ScanResult).findings = [] := by
      rw [withTotalHosts_findings, parseScanMetadata_findings]
      rfl
    have hbase_e : ({ parseScanMetadata xml initialResult with
        total_hosts := xml.hosts.length } : ScanResult).errors = [] := by
      rw [withTotalHosts_errors, parseScanMetadata_errors]
      rfl
    have hbase_a : ({ parseScanMetadata xml initialResult with
        total_hosts := xml.hosts.length } : ScanResult).assets = [] := by
      rw [withTotalHosts_assets, parseScanMetadata_assets]
      rfl
    have hbase_c : countsOk ({ parseScanMetadata xml initialResult with
        total_hosts := xml.hosts.length } : ScanResult) := by
      intro s
      have h1 : ({ parseScanMetadata xml initialResult with
          total_hosts := xml.hosts.length } : ScanResult).findings_by_severity
          = (parseScanMetadata xml initialResult).findings_by_severity := rfl
      rw [h1, parseScanMetadata_counts, hbase_f]
      simp [sevCount, initialResult]
    refine ⟨?_, ?_, ?_, ?_, ?_⟩
    · rw [withTotalFindings_findings, foldl_hostStep_findings, hbase_f]
      rfl
    · rw [withTotalFindings_errors, foldl_hostStep_errors, hbase_e]
      rfl
    · rw [withTotalFindings_assets, foldl_hostStep_assets, hbase_a]
      rfl
    · rw [withTotalFindings_total, withTotalFindings_findings]
    · intro s
      rw [withTotalFindings_counts, withTotalFindings_findings]
      exact foldl_hostStep_countsOk ts re xml.hosts _ hbase_c s

/-- C5: every ScanResult returned by the reference parser satisfies
`total_findings == len(findings)`; `findings_by_severity` records, for each
severity, exactly the number of findings with that severity; and the five
per-severity counts sum to `total_findings` (the zero-host early return
included, where both sides are zero). -/
theorem claim_C5_counts_partition (ts : String → Option Nat)
    (re : String → String → Bool) (xml : NessusXml) :
    (nessusParse ts re xml).total_findings = (nessusParse ts re xml).findings.length ∧
    (∀ s, (nessusParse ts re xml).findings_by_severity s
        = sevCount (nessusParse ts re xml).findings s) ∧
    (severityLevels.map (nessusParse ts re xml).findings_by_severity).sum
        = (nessusParse ts re xml).total_findings := by
  obtain ⟨_, _, _, ht, hc⟩ := nessusParse_spec ts re xml
  refine ⟨ht, hc, ?_⟩
  have hmap : severityLevels.map (nessusParse ts re xml).findings_by_severity
      = severityLevels.map (fun s => sevCount (nessusParse ts re xml).findings s) :=
    List.map_congr_left (fun s _ => hc s)
  rw [hmap, ht]
  have h5 := sum_sevCount (nessusParse ts re xml).findings
  simp only [severityLevels, List.map_cons, List.map_nil, List.sum_cons,
    List.sum_nil]
  omega

/-- C2 (amended): an exception raised while processing a host — including
one raised while parsing any of its report items — is caught by the per-host
handler, appended to the errors list with the host name, and processing
continues with the next host: the findings of all other hosts are returned,
and `parse` never raises once the XML container parsed (it is a total
function of the parsed tree).  A per-item exception, however, discards the
whole host contribution (its asset and the findings of its sibling items):
there is no per-item handler. -/
theorem claim_C2_amended_per_host_isolation (ts : String → Option Nat)
    (re : String → String → Bool) (xml : NessusXml) :
    (nessusParse ts re xml).findings = (xml.hosts.map (hostFs ts re)).flatten ∧
    (nessusParse ts re xml).errors = xml.hosts.filterMap (hostErrMsg ts re) := by
  obtain ⟨hf, he, _, _, _⟩ := nessusParse_spec ts re xml
  exact ⟨hf, he⟩

def ts0 : String → Option Nat := fun _ => none

def re0 : String → String → Bool := fun _ _ => false

def c2ItemGood : NReportItem :=
  { attrs := [("pluginID", "101"), ("pluginName", "GoodItem")] }

def c2ItemBad : NReportItem :=
  { attrs := [("pluginID", "102"), ("pluginName", "BadItem"), ("severity", "x")] }

def c2XmlBoth : NessusXml :=
  { hosts := [{ nameAttr := some "h1", items := [c2ItemGood, c2ItemBad] }] }

def c2XmlGood : NessusXml :=
  { hosts := [{ nameAttr := some "h1", items := [c2ItemGood] }] }

/-- Counterexample to C2 as stated: in a one-host file whose second item has
a non-numeric `severity` attribute, the first (valid) item parses to a
finding when alone, but the per-item exception of the second item aborts the
whole host, so parse returns no findings at all — the claim promised the
findings of all other valid items.  The error list still gets one entry
naming the host. -/
theorem claim_C2_counterexample :
    ((nessusParse ts0 re0 c2XmlGood).findings.map (fun f => f.title)) = ["GoodItem"] ∧
    (nessusParse ts0 re0 c2XmlBoth).findings = [] ∧
    (nessusParse ts0 re0 c2XmlBoth).errors
      = ["Error parsing host " ++ squote ++ "h1" ++ squote
          ++ ": invalid literal for int() with base 10: x"] := by
  refine ⟨?_, ?_, ?_⟩ <;> decide

theorem parseHost_snd_eq (ts : String → Option Nat) (re : String → String → Bool)
    (r : ScanResult) (host : NReportHost) :
    (parseHost ts re r host).2
      = (hostFindingsFold
          (createAssetOnly ts re (host.nameAttr.getD "") (parseHostProperties host))
          host.items).map
        (fun fs => (createAssetOnly ts re (host.nameAttr.getD "")
          (parseHostProperties host), fs)) := rfl

theorem hostAssetOpt_createAsset (ts : String → Option Nat)
    (re : String → String → Bool) (host : NReportHost) (a : RawAsset)
    (ha : hostAssetOpt ts re host = some a) :
    a = createAssetOnly ts re (host.nameAttr.getD "") (parseHostProperties host) := by
  unfold hostAssetOpt hostOutcome at ha
  rw [parseHost_snd_eq] at ha
  cases hE : hostFindingsFold
      (createAssetOnly ts re (host.nameAttr.getD "") (parseHostProperties host))
      host.items with
  | ok fs => rw [hE] at ha; simp [Except.map] at ha; exact ha.symm
  | error e => rw [hE] at ha; simp [Except.map] at ha

theorem isValidIp_ne_empty (s : String) (h : isValidIp s) : s ≠ "" := by
  intro hse
  subst hse
  simp [isValidIp] at h

/-- `_create_asset` sets the asset type by testing `_is_valid_ip` on the
identifier it just chose, so the type-iff holds with no condition on the
host name. -/
theorem createAssetOnly_type_iff (ts : String → Option Nat)
    (re : String → String → Bool) (hostName : String)
    (props : List (String × String)) :
    (createAssetOnly ts re hostName props).asset_type = AssetType.ip ↔
      isValidIp (createAssetOnly ts re hostName props).identifier := by
  have hty : (createAssetOnly ts re hostName props).asset_type
      = (if isValidIp (createAssetOnly ts re hostName props).identifier
         then AssetType.ip else AssetType.host) := rfl
  rw [hty]
  by_cases hv2 : isValidIp (createAssetOnly ts re hostName props).identifier
  · rw [if_pos hv2]
    exact ⟨fun _ => hv2, fun _ => rfl⟩
  · rw [if_neg hv2]
    refine ⟨fun hcontra => absurd hcontra (by decide), fun h2 => absurd h2 hv2⟩

/-- The identifier `_create_asset` chooses (the `host-ip` property when it
is a valid IP, else the host name) is non-empty whenever the host name
is. -/
theorem createAssetOnly_identifier_ne (ts : String → Option Nat)
    (re : String → String → Bool) (hostName : String)
    (props : List (String × String)) (hn : hostName ≠ "") :
    (createAssetOnly ts re hostName props).identifier ≠ "" := by
  have hid : (createAssetOnly ts re hostName props).identifier
      = (if isValidIp (dictGet props "host-ip" hostName)
         then dictGet props "host-ip" hostName else hostName) := rfl
  rw [hid]
  by_cases hv : isValidIp (dictGet props "host-ip" hostName)
  · rw [if_pos hv]
    exact isValidIp_ne_empty _ hv
  · rw [if_neg hv]
    exact hn

def c7Xml : NessusXml := { hosts := [{ nameAttr := none }] }

/-- Counterexample to C7 as stated: a `ReportHost` with no name attribute
and no `HostProperties` yields an asset whose identifier is the empty
string, which `parse` still returns. -/
theorem claim_C7_counterexample :
    ((nessusParse ts0 re0 c7Xml).assets.map (fun a => a.identifier)) = [""] := by
  decide

/-- C7 (amended): every asset produced by `parse` has `asset_type = ip` if
and only if its identifier is a syntactically valid IPv4 address — for
every input file, with no condition; and when every host in the file
carries a non-empty name attribute, every produced asset additionally has a
non-empty identifier.  (A host with a missing or empty name and no valid
`host-ip` property produces an asset with an empty identifier, so the
unconditional non-emptiness of the original claim fails.) -/
theorem claim_C7_amended_asset_invariants (ts : String → Option Nat)
    (re : String → String → Bool) (xml : NessusXml) :
    (∀ a ∈ (nessusParse ts re xml).assets,
      a.asset_type = AssetType.ip ↔ isValidIp a.identifier) ∧
    ((∀ h ∈ xml.hosts, h.nameAttr.getD "" ≠ "") →
      ∀ a ∈ (nessusParse ts re xml).assets, a.identifier ≠ "") := by
  obtain ⟨_, _, ha, _, _⟩ := nessusParse_spec ts re xml
  rw [ha]
  constructor
  · intro a hmem
    obtain ⟨host, hh, hsome⟩ := List.mem_filterMap.mp hmem
    rw [hostAssetOpt_createAsset ts re host a hsome]
    exact createAssetOnly_type_iff ts re _ _
  · intro hnames a hmem
    obtain ⟨host, hh, hsome⟩ := List.mem_filterMap.mp hmem
    rw [hostAssetOpt_createAsset ts re host a hsome]
    exact createAssetOnly_identifier_ne ts re _ _ (hnames host hh)

def c7wXml : NessusXml := { hosts := [{ nameAttr := some "web01" }] }

def c7wAsset : RawAsset := createAssetOnly ts0 re0 "web01" []

def c7uAsset : RawAsset := createAssetOnly ts0 re0 "" []

/-- Witness for the amended C7: the type-iff conjunct exercised on the
unnamed-host file `c7Xml` itself (whose asset has an empty identifier), and
the non-emptiness conjunct on a one-host file whose host is named
"web01". -/
theorem claim_C7_amended_asset_invariants_witness :
    (c7uAsset.asset_type = AssetType.ip ↔ isValidIp c7uAsset.identifier) ∧
    c7wAsset.identifier ≠ "" :=
  ⟨(claim_C7_amended_asset_invariants ts0 re0 c7Xml).1 c7uAsset (by decide),
   (claim_C7_amended_asset_invariants ts0 re0 c7wXml).2 (by decide) c7wAsset
     (by decide)⟩

/-! ## Import orchestrator (app/services/import_service.py)

The orchestrator calls external collaborators (Supabase storage / RPC /
table queries).  Each collaborator call is modelled by an environment slot
holding the call outcome — `.error` for a raised exception, `.ok` for a
returned value — and every performed call is recorded in an effect trace.
The service logic itself (ordering, guards, error handling, batching,
counter accumulation) is translated from the source. -/

instance {e : Type} {a : Type} [DecidableEq e] [DecidableEq a] :
    DecidableEq (Except e a) := fun x y =>
  match x, y with
  | .ok v, .ok w =>
      if h : v = w then .isTrue (by rw [h]) else
        .isFalse (fun he => h (Except.ok.inj he))
  | .error v, .error w =>
      if h : v = w then .isTrue (by rw [h]) else
        .isFalse (fun he => h (Except.error.inj he))
  | .ok _, .error _ => .isFalse (fun he => Except.noConfusion he)
  | .error _, .ok _ => .isFalse (fun he => Except.noConfusion he)

/-- Exception taxonomy of `app/core/exceptions.py` as raised by the import
services. -/
inductive ImpError where
  | duplicate (resource filename : String)
  | parseErr (msg : String)
  | storage (msg : String)
  | rpc (fn msg : String)
  | validation (msg : String)
  | exc (msg : String)
deriving DecidableEq, Repr

/-- Per-batch counters returned by the reconciliation RPCs. -/
structure BatchStats where
  findings_created : Nat := 0
  findings_updated : Nat := 0
  findings_reopened : Nat := 0
deriving DecidableEq, Repr

def addStats (a b : BatchStats) : BatchStats :=
  { findings_created := a.findings_created + b.findings_created,
    findings_updated := a.findings_updated + b.findings_updated,
    findings_reopened := a.findings_reopened + b.findings_reopened }

/-- Observable side effects of an import run. -/
inductive Effect where
  | storagePut (path : String)
  | storageRemove (path : String) (succeeded : Bool)
  | translationCall
  | rpcSingleImport (findings : List RawFinding) (assets : List RawAsset)
  | rpcCreateImportRecord (scanImportId : String)
  | rpcBatch (batchNumber : Nat) (findings : List RawFinding)
      (assetsIncluded : Bool)
  | rpcFinalize (scanImportId : String) (created updated : Nat)
  | rpcFailImport (scanImportId : String)
  | insertImportRecord (scanImportId status : String)
  | updateImportStatus (scanImportId status : String)
deriving DecidableEq, Repr

/-- Blob paths still present after a trace: puts minus successful removes. -/
def finalBlobs (effs : List Effect) : List String :=
  effs.foldl (fun acc e =>
    match e with
    | .storagePut p => acc ++ [p]
    | .storageRemove p true => acc.filter (fun q => q ≠ p)
    | _ => acc) []

/-- Summary dict returned by a successful import. -/
structure ImportSummary where
  scan_import_id : String
  status : String
  mode : String
  batches_processed : Nat := 0
  findings_created : Nat := 0
  findings_updated : Nat := 0
  findings_reopened : Nat := 0
deriving DecidableEq, Repr

/-- `ImportService.BATCH_THRESHOLD`. -/
def BATCH_THRESHOLD : Nat := 10

/-- `ImportService.BATCH_SIZE`. -/
def BATCH_SIZE : Nat := 1000

/-- Collaborator-call outcomes for one `ImportService.process_scan` run. -/
structure ImportEnv where
  dupQuery : String → Except String (List String)
  adapterOk : Bool := true
  validateOk : Bool := true
  uploadOk : Except String Unit := .ok ()
  storageTimestamp : String := "20250101_000000"
  storageUuid : String := "abcd1234"
  parseResult : Except String ScanResult
  singleRpc : Except String (Bool × String × BatchStats) :=
    .ok (true, "imp", {})
  createRecord : Except String (Bool × String) := .ok (true, "imp")
  batchRpc : Nat → Except String (Bool × BatchStats) := fun _ => .ok (true, {})
  finalizeRpc : Except String Bool := .ok true
  failRpc : Except String Unit := .ok ()
  removeOk : Bool := true

/-- `ImportService._check_duplicate`: a raised exception from the query is
caught, logged, and reported as `False` (no duplicate). -/
def checkDuplicate (q : Except String (List String)) : Bool :=
  match q with
  | .ok rows => rows.length > 0
  | .error _ => false

/-- The storage path built by `_upload_to_storage`:
`f"{workspace_id}/scans/{timestamp}_{unique_id}_{filename}"`. -/
def storagePathOf (timestamp uuid ws fn : String) : String :=
  ws ++ "/scans/" ++ timestamp ++ "_" ++ uuid ++ "_" ++ fn

/-- `ImportService._process_single`: translation step (its failure is caught
and ignored), then one bulk RPC whose `success` flag is checked. -/
def processSingle (env : ImportEnv) (sr : ScanResult) :
    Except ImpError ImportSummary × List Effect :=
  let effs := [Effect.translationCall,
               Effect.rpcSingleImport sr.findings sr.assets]
  match env.singleRpc with
  | .error e => (.error (.exc e), effs)
  | .ok (success, scanImportId, stats) =>
      if success then
        (.ok { scan_import_id := scanImportId, status := "processed",
               mode := "single",
               findings_created := stats.findings_created,
               findings_updated := stats.findings_updated,
               findings_reopened := stats.findings_reopened }, effs)
      else (.error (.rpc "fn_process_scan_import_v4" "error"), effs)

/-- The batch loop of `_process_in_batches`: send each slice (assets only
with batch 1), accumulate the per-batch counters, stop at the first
failure. -/
def runBatches (batchRpc : Nat → Except String (Bool × BatchStats)) :
    List (List RawFinding) → Nat → BatchStats →
    Except ImpError BatchStats × List Effect
  | [], _, acc => (.ok acc, [])
  | c :: cs, n, acc =>
      let eff := Effect.rpcBatch n c (n = 1)
      match batchRpc n with
      | .error e => (.error (.exc e), [eff])
      | .ok (success, stats) =>
          if success then
            let rest := runBatches batchRpc cs (n + 1) (addStats acc stats)
            (rest.1, eff :: rest.2)
          else (.error (.rpc "fn_process_scan_batch" "Batch failed"), [eff])

/-- `ImportService._process_in_batches`: create the import record, run the
translation step (failure caught), reconcile the findings in slices of
`BATCH_SIZE`, finalize; any exception in the inner block marks the import
failed (`fn_fail_scan_import`, best-effort) and re-raises. -/
def processInBatches (env : ImportEnv) (sr : ScanResult) :
    Except ImpError ImportSummary × List Effect :=
  match env.createRecord with
  | .error e => (.error (.exc e), [])
  | .ok (success, scanImportId) =>
      if success then
        let effs0 := [Effect.rpcCreateImportRecord scanImportId,
                      Effect.translationCall]
        let chunks := listChunks BATCH_SIZE sr.findings
        match runBatches env.batchRpc chunks 1 {} with
        | (.error e, beffs) =>
            (.error e, effs0 ++ beffs ++ [Effect.rpcFailImport scanImportId])
        | (.ok totals, beffs) =>
            match env.finalizeRpc with
            | .error e =>
                (.error (.exc e),
                 effs0 ++ beffs ++ [Effect.rpcFailImport scanImportId])
            | .ok fsuccess =>
                if fsuccess then
                  (.ok { scan_import_id := scanImportId, status := "processed",
                         mode := "batch",
                         batches_processed := chunks.length,
                         findings_created := totals.findings_created,
                         findings_updated := totals.findings_updated,
                         findings_reopened := totals.findings_reopened },
                   effs0 ++ beffs
                     ++ [Effect.rpcFinalize scanImportId totals.findings_created
                          totals.findings_updated])
                else
                  (.error (.rpc "fn_finalize_scan_import" "Finalize failed"),
                   effs0 ++ beffs ++ [Effect.rpcFailImport scanImportId])
      else (.error (.rpc "fn_create_scan_import_record" "error"), [])

/-- `ImportService.process_scan`: hash, duplicate check, adapter resolution
and validation, upload to storage, then parse and reconcile inside a
try/except whose handler attempts to remove the stored blob and
re-raises. -/
def processScan (env : ImportEnv) (workspace_id : String)
    (file_content : List Nat) (filename : String) (project_id : Option String) :
    Except ImpError ImportSummary × List Effect :=
  let file_hash := sha256Hex file_content
  if checkDuplicate (env.dupQuery file_hash) then
    (.error (.duplicate "Scan file" filename), [])
  else if ¬ env.adapterOk then
    (.error (.validation "No adapter found for file"), [])
  else if ¬ env.validateOk then
    (.error (.parseErr "Invalid nessus file format"), [])
  else
    let storage_path :=
      storagePathOf env.storageTimestamp env.storageUuid workspace_id filename
    match env.uploadOk with
    | .error e => (.error (.storage ("Failed to upload file: " ++ e)), [])
    | .ok _ =>
        let putEff := [Effect.storagePut storage_path]
        match env.parseResult with
        | .error e =>
            (.error (.parseErr e),
             putEff ++ [Effect.storageRemove storage_path env.removeOk])
        | .ok scan_result =>
            let inner :=
              if scan_result.total_findings > BATCH_THRESHOLD then
                processInBatches env scan_result
              else
                processSingle env scan_result
            match inner with
            | (.error e, effs) =>
                (.error e, putEff ++ effs
                  ++ [Effect.storageRemove storage_path env.removeOk])
            | (.ok summary, effs) => (.ok summary, putEff ++ effs)

/-! ## Claims C3 and C9 -/

def c3Env : ImportEnv :=
  { dupQuery := fun _ => .ok [], parseResult := .error "XML bomb",
    removeOk := true }

/-- Counterexample to C3 as stated: with upload succeeded and parsing
failed, `process_scan` raises and its exception handler removes the stored
blob (lines 147-150 of import_service.py), so no stored path survives the
failure — the claim promised the artifact survives. -/
theorem claim_C3_counterexample :
    ((processScan c3Env "ws1" [60] "scan.nessus" none).1
      = Except.error (ImpError.parseErr "XML bomb")) ∧
    finalBlobs (processScan c3Env "ws1" [60] "scan.nessus" none).2 = [] := by
  refine ⟨?_, ?_⟩ <;> decide

/-- C3 (amended): the raw bytes are stored under the scope-qualified path
`{workspace_id}/scans/...` before parsing — the trace records the put even
though parse fails — but on a later failure the handler attempts to delete
the stored blob (best-effort) and re-raises; when the delete succeeds the
artifact does NOT survive the failure. -/
theorem claim_C3_amended_upload_then_cleanup (env : ImportEnv)
    (ws : String) (fc : List Nat) (fn : String) (pid : Option String)
    (e : String)
    (hdup : checkDuplicate (env.dupQuery (sha256Hex fc)) = false)
    (hadapter : env.adapterOk = true) (hvalid : env.validateOk = true)
    (hup : env.uploadOk = .ok ()) (hparse : env.parseResult = .error e) :
    processScan env ws fc fn pid
      = (.error (.parseErr e),
         [Effect.storagePut (storagePathOf env.storageTimestamp env.storageUuid ws fn),
          Effect.storageRemove
            (storagePathOf env.storageTimestamp env.storageUuid ws fn)
            env.removeOk])
    ∧ (env.removeOk = true →
        finalBlobs (processScan env ws fc fn pid).2 = []) := by
  have h1 : processScan env ws fc fn pid
      = (.error (.parseErr e),
         [Effect.storagePut (storagePathOf env.storageTimestamp env.storageUuid ws fn),
          Effect.storageRemove
            (storagePathOf env.storageTimestamp env.storageUuid ws fn)
            env.removeOk]) := by
    simp [processScan, hdup, hadapter, hvalid, hup, hparse]
  refine ⟨h1, fun hrm => ?_⟩
  rw [h1, hrm]
  simp [finalBlobs]

/-- Witness for the amended C3 at a concrete environment where storage
upload succeeds, parse raises, and the cleanup delete succeeds. -/
theorem claim_C3_amended_upload_then_cleanup_witness :
    (processScan c3Env "ws1" [60] "scan.nessus" none
      = (.error (.parseErr "XML bomb"),
         [Effect.storagePut
            (storagePathOf c3Env.storageTimestamp c3Env.storageUuid "ws1" "scan.nessus"),
          Effect.storageRemove
            (storagePathOf c3Env.storageTimestamp c3Env.storageUuid "ws1" "scan.nessus")
            c3Env.removeOk]))
    ∧ finalBlobs (processScan c3Env "ws1" [60] "scan.nessus" none).2 = [] :=
  ⟨(claim_C3_amended_upload_then_cleanup c3Env "ws1" [60] "scan.nessus" none
      "XML bomb" rfl rfl rfl rfl rfl).1,
   (claim_C3_amended_upload_then_cleanup c3Env "ws1" [60] "scan.nessus" none
      "XML bomb" rfl rfl rfl rfl rfl).2 rfl⟩

def c9ScanResult : ScanResult := { scanner := "nessus" }

def c9Env : ImportEnv :=
  { dupQuery := fun _ => .error "connection reset",
    parseResult := .ok c9ScanResult,
    singleRpc := .ok (true, "imp9", {}) }

/-- Counterexample to C9 as stated: when the duplicate-hash query raises,
`_check_duplicate` catches the exception and returns `False`
(lines 645-647), and `process_scan` continues and completes as if no
duplicate existed. -/
theorem claim_C9_counterexample :
    checkDuplicate (c9Env.dupQuery "h") = false ∧
    (processScan c9Env "ws" [61] "f.nessus" none).1
      = .ok { scan_import_id := "imp9", status := "processed",
              mode := "single" } := by
  refine ⟨rfl, ?_⟩
  decide

/-- C9 (amended): a failure of the duplicate-hash query is caught inside
`_check_duplicate`, logged, and treated as "no duplicate": the whole
`process_scan` run is indistinguishable from one whose duplicate query
returned zero rows. -/
theorem claim_C9_amended_dup_error_swallowed (env : ImportEnv) (ws : String)
    (fc : List Nat) (fn : String) (pid : Option String) (e : String) :
    checkDuplicate (.error e) = false ∧
    processScan { env with dupQuery := fun _ => .error e } ws fc fn pid
      = processScan { env with dupQuery := fun _ => .ok [] } ws fc fn pid :=
  ⟨rfl, rfl⟩

/-! ## Claim C8: batch partitioning -/

theorem addStats_zero_right (a : BatchStats) : addStats a {} = a := by
  cases a
  simp [addStats]

theorem addStats_zero_left (a : BatchStats) : addStats {} a = a := by
  cases a
  simp [addStats]

theorem addStats_assoc (a b c : BatchStats) :
    addStats (addStats a b) c = addStats a (addStats b c) := by
  cases a; cases b; cases c
  simp [addStats, Nat.add_assoc]

/-- The effect sequence emitted by the batch loop for the given chunks,
starting at the given batch number: each chunk in order, assets included
exactly with batch 1. -/
def batchTrace : List (List RawFinding) → Nat → List Effect
  | [], _ => []
  | c :: cs, n => Effect.rpcBatch n c (n = 1) :: batchTrace cs (n + 1)

/-- Sum of the per-batch stats for batch numbers `n, n+1, ..., n+k-1`. -/
def statsSum (stats : Nat → BatchStats) : Nat → Nat → BatchStats
  | _, 0 => {}
  | n, k + 1 => addStats (stats n) (statsSum stats (n + 1) k)

theorem runBatches_ok (stats : Nat → BatchStats)
    (batchRpc : Nat → Except String (Bool × BatchStats))
    (hb : ∀ m, batchRpc m = .ok (true, stats m)) :
    ∀ (chunks : List (List RawFinding)) (n : Nat) (acc : BatchStats),
      runBatches batchRpc chunks n acc
        = (.ok (addStats acc (statsSum stats n chunks.length)),
           batchTrace chunks n) := by
  intro chunks
  induction chunks with
  | nil =>
      intro n acc
      simp [runBatches, statsSum, addStats_zero_right, batchTrace]
  | cons c cs ih =>
      intro n acc
      rw [runBatches, hb n]
      simp only [if_pos]
      rw [ih (n + 1) (addStats acc (stats n))]
      simp [batchTrace, statsSum, addStats_assoc]

theorem listChunksF_mem_length_le (n fuel : Nat) (l : List α) (c : List α)
    (hc : c ∈ listChunksF n fuel l) : c.length ≤ n := by
  induction fuel generalizing l with
  | zero => simp [listChunksF] at hc
  | succ fuel ih =>
      cases l with
      | nil => simp [listChunksF] at hc
      | cons x xs =>
          rw [listChunksF] at hc
          by_cases hn : n = 0
          · rw [if_pos hn] at hc
            simp at hc
          · rw [if_neg hn] at hc
            rcases List.mem_cons.mp hc with h | h
            · rw [h]
              exact List.length_take_le n (x :: xs)
            · exact ih _ h

theorem listChunks_mem_length_le (n : Nat) (l : List α) (c : List α)
    (hc : c ∈ listChunks n l) : c.length ≤ n :=
  listChunksF_mem_length_le n l.length l c hc

/-- C8: when the finding count exceeds `BATCH_THRESHOLD`, the findings are
sent in consecutive `BATCH_SIZE`-slices, in order, every finding in exactly
one batch (the slices flatten back to the findings list and each is at most
`BATCH_SIZE` long); assets accompany only batch 1 (the boolean of each
`rpcBatch` effect); the returned created/updated/reopened counters are the
sums of the per-batch counters; and `fn_finalize_scan_import` is invoked
after the last batch, as the final effect. -/
theorem claim_C8_batched_reconciliation (env : ImportEnv) (ws : String)
    (fc : List Nat) (fn : String) (pid : Option String) (sr : ScanResult)
    (stats : Nat → BatchStats) (impId : String)
    (hdup : checkDuplicate (env.dupQuery (sha256Hex fc)) = false)
    (hadapter : env.adapterOk = true) (hvalid : env.validateOk = true)
    (hup : env.uploadOk = .ok ())
    (hparse : env.parseResult = .ok sr)
    (hthresh : sr.total_findings > BATCH_THRESHOLD)
    (hcreate : env.createRecord = .ok (true, impId))
    (hb : ∀ m, env.batchRpc m = .ok (true, stats m))
    (hfin : env.finalizeRpc = .ok true) :
    processScan env ws fc fn pid
      = (.ok { scan_import_id := impId, status := "processed", mode := "batch",
               batches_processed := (listChunks BATCH_SIZE sr.findings).length,
               findings_created :=
                 (statsSum stats 1 (listChunks BATCH_SIZE sr.findings).length).findings_created,
               findings_updated :=
                 (statsSum stats 1 (listChunks BATCH_SIZE sr.findings).length).findings_updated,
               findings_reopened :=
                 (statsSum stats 1 (listChunks BATCH_SIZE sr.findings).length).findings_reopened },
         [Effect.storagePut (storagePathOf env.storageTimestamp env.storageUuid ws fn),
          Effect.rpcCreateImportRecord impId, Effect.translationCall]
           ++ batchTrace (listChunks BATCH_SIZE sr.findings) 1
           ++ [Effect.rpcFinalize impId
                (statsSum stats 1 (listChunks BATCH_SIZE sr.findings).length).findings_created
                (statsSum stats 1 (listChunks BATCH_SIZE sr.findings).length).findings_updated])
    ∧ (listChunks BATCH_SIZE sr.findings).flatten = sr.findings
    ∧ (∀ c ∈ listChunks BATCH_SIZE sr.findings, c.length ≤ BATCH_SIZE) := by
  refine ⟨?_, listChunks_flatten BATCH_SIZE (by decide) sr.findings,
    fun c hc => listChunks_mem_length_le BATCH_SIZE sr.findings c hc⟩
  have hrun := runBatches_ok stats env.batchRpc hb
    (listChunks BATCH_SIZE sr.findings) 1 {}
  simp [processScan, processInBatches, hdup, hadapter, hvalid, hup, hparse,
    hthresh, hcreate, hfin, hrun, addStats_zero_left]

def c8Finding : RawFinding :=
  { title := "f", severity := .low, scanner := "nessus",
    asset_identifier := "10.0.0.1" }

def c8ScanResult : ScanResult :=
  { scanner := "nessus", findings := List.replicate 1001 c8Finding,
    total_findings := 1001 }

def c8Stats : Nat → BatchStats := fun n => { findings_created := n }

def c8Env : ImportEnv :=
  { dupQuery := fun _ => .ok [],
    parseResult := .ok c8ScanResult,
    createRecord := .ok (true, "imp8"),
    batchRpc := fun n => .ok (true, c8Stats n),
    finalizeRpc := .ok true }

/-- Witness for C8 at a 1001-finding scan in an all-success environment
(two batches of 1000 and 1). -/
theorem claim_C8_batched_reconciliation_witness :
    (processScan c8Env "ws" [62] "big.nessus" none
      = (.ok { scan_import_id := "imp8", status := "processed", mode := "batch",
               batches_processed := (listChunks BATCH_SIZE c8ScanResult.findings).length,
               findings_created :=
                 (statsSum c8Stats 1 (listChunks BATCH_SIZE c8ScanResult.findings).length).findings_created,
               findings_updated :=
                 (statsSum c8Stats 1 (listChunks BATCH_SIZE c8ScanResult.findings).length).findings_updated,
               findings_reopened :=
                 (statsSum c8Stats 1 (listChunks BATCH_SIZE c8ScanResult.findings).length).findings_reopened },
         [Effect.storagePut (storagePathOf c8Env.storageTimestamp c8Env.storageUuid "ws" "big.nessus"),
          Effect.rpcCreateImportRecord "imp8", Effect.translationCall]
           ++ batchTrace (listChunks BATCH_SIZE c8ScanResult.findings) 1
           ++ [Effect.rpcFinalize "imp8"
                (statsSum c8Stats 1 (listChunks BATCH_SIZE c8ScanResult.findings).length).findings_created
                (statsSum c8Stats 1 (listChunks BATCH_SIZE c8ScanResult.findings).length).findings_updated]))
    ∧ (listChunks BATCH_SIZE c8ScanResult.findings).flatten = c8ScanResult.findings :=
  ⟨(claim_C8_batched_reconciliation c8Env "ws" [62] "big.nessus" none
      c8ScanResult c8Stats "imp8" rfl rfl rfl rfl rfl (by decide) rfl
      (fun m => rfl) rfl).1,
   (claim_C8_batched_reconciliation c8Env "ws" [62] "big.nessus" none
      c8ScanResult c8Stats "imp8" rfl rfl rfl rfl rfl (by decide) rfl
      (fun m => rfl) rfl).2.1⟩

/-! ## Optimized import service (app/services/import_service_optimized.py)

`process_scan_v1_batch_service_role`: permission validation, hash,
project-scoped duplicate check guarded by the `force_upload` override flag,
adapter validation, storage upload, import-record insert, parse, batch save
(whose internal per-batch failures are caught and logged), and a final
status update; an exception after record creation marks the record failed
and re-raises. -/

structure OptEnv where
  userId : Option String := some "user1"
  permissionOk : Bool := true
  dupQuery : Except String (List String) := .ok []
  adapterOk : Bool := true
  validateOk : Bool := true
  uploadOk : Except String Unit := .ok ()
  storageTimestamp : String := "20250101_000000"
  storageUuid : String := "abcd1234"
  createImport : Except String String := .ok "imp"
  parseResult : Except String ScanResult
  saveSummary : BatchStats := {}
  updateStatusOk : Except String Unit := .ok ()

/-- `_check_duplicate_service_role`: exceptions are caught and reported as
`False`, like `_check_duplicate`. -/
def checkDuplicateServiceRole (q : Except String (List String)) : Bool :=
  match q with
  | .ok rows => rows.length > 0
  | .error _ => false

/-- `ImportServiceOptimized.process_scan_v1_batch_service_role`. -/
def processScanV1 (env : OptEnv) (ws : String) (fc : List Nat) (fn : String)
    (pid : Option String) (forceUpload : Bool) :
    Except ImpError ImportSummary × List Effect :=
  match env.userId with
  | none => (.error (.validation "Token invalido o expirado"), [])
  | some _uid =>
    if ¬ env.permissionOk then
      (.error (.validation "No tienes permiso para subir scans a este workspace"),
       [])
    else
      let file_hash := sha256Hex fc
      let isDup :=
        if ¬ forceUpload ∧ pyTruthyOptStr pid then
          checkDuplicateServiceRole env.dupQuery
        else false
      if isDup then (.error (.duplicate "Scan file" fn), [])
      else if ¬ env.adapterOk then
        (.error (.validation "No adapter found for file"), [])
      else if ¬ env.validateOk then
        (.error (.parseErr "Invalid file format"), [])
      else
        let path := storagePathOf env.storageTimestamp env.storageUuid ws fn
        match env.uploadOk with
        | .error e => (.error (.storage ("Failed to upload file: " ++ e)), [])
        | .ok _ =>
            match env.createImport with
            | .error e =>
                (.error (.rpc "create_scan_import" e), [Effect.storagePut path])
            | .ok importId =>
                let effs0 := [Effect.storagePut path,
                              Effect.insertImportRecord importId "processing"]
                match env.parseResult with
                | .error e =>
                    (.error (.parseErr e),
                     effs0 ++ [Effect.updateImportStatus importId "failed"])
                | .ok _sr =>
                    match env.updateStatusOk with
                    | .error e =>
                        (.error (.exc e),
                         effs0 ++ [Effect.updateImportStatus importId "failed"])
                    | .ok _ =>
                        (.ok { scan_import_id := importId,
                               status := "processed",
                               mode := "v1_batch_service_role",
                               findings_created := env.saveSummary.findings_created,
                               findings_updated := env.saveSummary.findings_updated,
                               findings_reopened := env.saveSummary.findings_reopened },
                         effs0 ++ [Effect.updateImportStatus importId "processed"])

/-- C4: when an import with the identical content hash already exists in
the same project scope, the upload without the override flag is rejected as
a duplicate with an empty effect trace — no import record is created and no
bytes are stored; the byte-identical upload with `force_upload = True` in
an otherwise-successful environment completes as processed.  The last
conjunct shows the plain `ImportService.process_scan` (which has no
override parameter) also rejects before any side effect. -/
theorem claim_C4_duplicate_rejection_and_override (env : OptEnv)
    (env2 : ImportEnv) (ws : String) (fc : List Nat) (fn p : String)
    (rows : List String) (uid impId : String) (sr : ScanResult)
    (hp : p ≠ "")
    (huser : env.userId = some uid)
    (hperm : env.permissionOk = true)
    (hdup : env.dupQuery = .ok rows) (hrows : rows ≠ [])
    (hadapter : env.adapterOk = true) (hvalid : env.validateOk = true)
    (hup : env.uploadOk = .ok ()) (hcreate : env.createImport = .ok impId)
    (hparse : env.parseResult = .ok sr) (hupd : env.updateStatusOk = .ok ())
    (hdup2 : env2.dupQuery (sha256Hex fc) = .ok rows) :
    processScanV1 env ws fc fn (some p) false
      = (.error (.duplicate "Scan file" fn), [])
    ∧ (processScanV1 env ws fc fn (some p) true).1
      = .ok { scan_import_id := impId, status := "processed",
              mode := "v1_batch_service_role",
              findings_created := env.saveSummary.findings_created,
              findings_updated := env.saveSummary.findings_updated,
              findings_reopened := env.saveSummary.findings_reopened }
    ∧ processScan env2 ws fc fn (some p)
      = (.error (.duplicate "Scan file" fn), []) := by
  have hlen : rows.length > 0 := List.length_pos.mpr hrows
  refine ⟨?_, ?_, ?_⟩
  · simp [processScanV1, huser, hperm, hdup, checkDuplicateServiceRole,
      pyTruthyOptStr, hp, hlen]
  · simp [processScanV1, huser, hperm, hadapter, hvalid, hup, hcreate,
      hparse, hupd]
  · simp [processScan, checkDuplicate, hdup2, hlen]

def c4ScanResult : ScanResult := { scanner := "nessus" }

def c4OptEnv : OptEnv :=
  { dupQuery := .ok ["existing-import"], parseResult := .ok c4ScanResult }

def c4ImpEnv : ImportEnv :=
  { dupQuery := fun _ => .ok ["existing-import"],
    parseResult := .ok c4ScanResult }

/-- Witness for C4 at a concrete environment whose duplicate query returns
one existing row. -/
theorem claim_C4_duplicate_rejection_and_override_witness :
    (processScanV1 c4OptEnv "ws" [63] "dup.nessus" (some "proj1") false
      = (.error (.duplicate "Scan file" "dup.nessus"), []))
    ∧ ((processScanV1 c4OptEnv "ws" [63] "dup.nessus" (some "proj1") true).1
      = .ok { scan_import_id := "imp", status := "processed",
              mode := "v1_batch_service_role",
              findings_created := c4OptEnv.saveSummary.findings_created,
              findings_updated := c4OptEnv.saveSummary.findings_updated,
              findings_reopened := c4OptEnv.saveSummary.findings_reopened })
    ∧ (processScan c4ImpEnv "ws" [63] "dup.nessus" (some "proj1")
      = (.error (.duplicate "Scan file" "dup.nessus"), [])) :=
  ⟨(claim_C4_duplicate_rejection_and_override c4OptEnv c4ImpEnv "ws" [63]
      "dup.nessus" "proj1" ["existing-import"] "user1" "imp" c4ScanResult
      (by decide) rfl rfl rfl (by decide) rfl rfl rfl rfl rfl rfl rfl).1,
   (claim_C4_duplicate_rejection_and_override c4OptEnv c4ImpEnv "ws" [63]
      "dup.nessus" "proj1" ["existing-import"] "user1" "imp" c4ScanResult
      (by decide) rfl rfl rfl (by decide) rfl rfl rfl rfl rfl rfl rfl).2.1,
   (claim_C4_duplicate_rejection_and_override c4OptEnv c4ImpEnv "ws" [63]
      "dup.nessus" "proj1" ["existing-import"] "user1" "imp" c4ScanResult
      (by decide) rfl rfl rfl (by decide) rfl rfl rfl rfl rfl rfl rfl).2.2⟩

end VexScan
